import Mathlib

/-!
A shallow embedding of `src/Python/mangledotdev.py` (the mangle.dev
inter-process call bridge) and proofs about it.

The embedding covers:
* `get_command`   — `InputManager.__get_command` (the launch resolver),
  with the filesystem abstracted as a record `FS` of query functions
  (POSIX host assumed, so the Windows-only slash rewriting at the top of
  the Python function is the identity and is omitted);
* `request`       — `InputManager.request`: child spawning is abstracted
  as an environment function `Env.spawn` from the resolved command to a
  `SpawnResult` (exit code, classified stdout lines, stderr text, or a
  raised exception), and the JSON decoding of one stdout line is
  abstracted by the `OutLine` classification (blank line / non-JSON noise
  / JSON that is not an object / a decoded response object);
* `OutputManager` — the callee-side singleton's mutable class attributes
  as an explicit state record, with `OutputManager.output` returning the
  new state together with the line written (if any) to the real stdout.

Python `None`-able booleans are `Option Bool`, JSON values are the
inductive `JVal`, and the exact message strings of the source are kept.
-/

namespace Mangle

/-- A JSON value, as produced by `json.loads` / consumed by `json.dumps`
(objects are not needed at the positions this model tracks, so they are
represented only where they matter: decoded response lines are the
structure `ResponseLine` below). -/
inductive JVal where
  | null
  | bool (b : Bool)
  | num (n : Int)
  | str (s : String)
  | arr (xs : List JVal)
deriving Repr

/-- The Python exception classes that `InputManager.request` distinguishes:
the named handler catches `FileNotFoundError`, `PermissionError` and
`ValueError`; everything else falls to the generic `Exception` handler.
The payload is `str(e)`. -/
inductive PyExc where
  | fileNotFound (msg : String)
  | permissionError (msg : String)
  | valueError (msg : String)
  | otherExc (msg : String)
deriving Repr, DecidableEq

/-- `str(e)` for the modelled exceptions. -/
def PyExc.msg : PyExc → String
  | .fileNotFound m => m
  | .permissionError m => m
  | .valueError m => m
  | .otherExc m => m

/-- The filesystem queries `__get_command` performs, abstracted so that
theorems can quantify over every filesystem state: `os.path.exists`,
`os.path.isfile`, `os.access(·, X_OK)`, `os.access(·, R_OK)`. -/
structure FS where
  pathExists : String → Bool
  isfile : String → Bool
  xok : String → Bool
  rok : String → Bool

/-- Python `str.upper` (ASCII behaviour, character by character). -/
def pyUpper (s : String) : String := String.mk (s.data.map Char.toUpper)

/-- Python `str.lower` (ASCII behaviour, character by character). -/
def pyLower (s : String) : String := String.mk (s.data.map Char.toLower)

/-- Python whitespace, as stripped by `str.strip()`. -/
def isPySpace (c : Char) : Bool :=
  c = ' ' || c = '\t' || c = '\n' || c = '\r' || c = '\x0b' || c = '\x0c'

/-- Python `str.strip()`. -/
def pyStrip (s : String) : String :=
  String.mk (((s.data.dropWhile isPySpace).reverse.dropWhile isPySpace).reverse)

/-- Python `str.startswith`. -/
def pyStartsWith (p pre : String) : Bool := pre.data.isPrefixOf p.data

/-- `str.rfind` on the character list: index of the last occurrence of `c`,
`-1` when absent. -/
def rfindIdx (c : Char) (cs : List Char) : Int :=
  match cs.reverse.findIdx? (· = c) with
  | none => -1
  | some i => ((cs.length - 1 - i : Nat) : Int)

/-- `os.path.splitext(p)[1]` for a POSIX path: the extension starts at the
last dot of the final path component, unless every character of the
component before that dot is itself a dot (so ".bashrc" has no
extension). -/
def extOf (p : String) : String :=
  let cs := p.data
  let sepIndex := rfindIdx '/' cs
  let dotIndex := rfindIdx '.' cs
  if sepIndex < dotIndex then
    let start := (sepIndex + 1).toNat
    let stop := dotIndex.toNat
    if ((cs.drop start).take (stop - start)).any (fun c => c ≠ '.') then
      String.mk (cs.drop stop)
    else ""
  else ""

/-- `os.path.isabs` for a POSIX path. -/
def isAbs (p : String) : Bool := pyStartsWith p "/"

/-- The `extension_map` dict of `__get_command`, as an association list in
source order. -/
def extension_map : List (String × List String) :=
  [("PYTHON", [".py"]),
   ("PY", [".py"]),
   ("JAVASCRIPT", [".js"]),
   ("JS", [".js"]),
   ("NODE", [".js"]),
   ("NODEJS", [".js"]),
   ("RUBY", [".rb"]),
   ("RB", [".rb"]),
   ("C", [".c", ".out", ".exe", ""]),
   ("CS", [".exe", ".dll", ""]),
   ("CPP", [".cpp", ".cc", ".cxx", ".out", ".exe", ""]),
   ("C#", [".exe", ".dll", ""]),
   ("C++", [".cpp", ".cc", ".cxx", ".out", ".exe", ""]),
   ("CSHARP", [".exe", ".dll", ""]),
   ("CPLUSPLUS", [".cpp", ".cc", ".cxx", ".out", ".exe", ""]),
   ("EXE", [".cpp", ".cc", ".cxx", ".out", ".exe", ""]),
   ("JAR", [".jar"]),
   ("JAVA", [".jar"]),
   ("RUST", [".rs", ".exe", ".out", ""]),
   ("RS", [".rs", ".exe", ".out", ""]),
   ("GO", [".go", ".exe", ".out", ""]),
   ("GOLANG", [".go", ".exe", ".out", ""])]

/-- The `compiled_langs` list of `__get_command`. -/
def compiled_langs : List String :=
  ["C", "CS", "CPP", "C#", "C++", "CSHARP", "CPLUSPLUS", "EXE",
   "RUST", "RS", "GO", "GOLANG"]

/-- The `lang_map` dict of `__get_command`, as an association list in
source order; `file` is the (possibly "./"-prefixed) path and `file_ext`
the lowered extension of the original path. -/
def lang_map (file file_ext : String) : List (String × List String) :=
  [("PYTHON", ["python", file]),
   ("PY", ["python", file]),
   ("JAVASCRIPT", ["node", file]),
   ("JS", ["node", file]),
   ("NODE", ["node", file]),
   ("NODEJS", ["node", file]),
   ("RUBY", ["ruby", file]),
   ("RB", ["ruby", file]),
   ("C", [file]),
   ("CS", if file_ext = ".dll" then ["dotnet", file] else [file]),
   ("CPP", [file]),
   ("C#", if file_ext = ".dll" then ["dotnet", file] else [file]),
   ("C++", [file]),
   ("CSHARP", if file_ext = ".dll" then ["dotnet", file] else [file]),
   ("CPLUSPLUS", [file]),
   ("EXE", [file]),
   ("JAR", ["java", "-jar", file]),
   ("JAVA", ["java", "-jar", file]),
   ("RUST", [file]),
   ("RS", [file]),
   ("GO", if file_ext = ".go" then ["go", "run", file] else [file]),
   ("GOLANG", if file_ext = ".go" then ["go", "run", file] else [file])]

/-- The message of the invalid-extension `ValueError`. -/
def invalidExtMsg (file language : String) (valid_extensions : List String) : String :=
  let expected := String.intercalate ", "
    (valid_extensions.map fun ext => if ext = "" then "(no extension)" else ext)
  s!"Invalid file '{file}' for language '{language}'. Expected: e.g. 'file{expected}'"

/-- `InputManager.__get_command`: validate the file for the language and
build the command array, or fail with the exception the Python code
raises.  Mirrors the source order: extension check first (before any
filesystem access), then existence, regular-file and permission checks,
then the "./" rewrite for compiled languages, then the command table. -/
def get_command (fs : FS) (language file : String) : Except PyExc (List String) :=
  let lang_upper := pyUpper language
  let file_ext := pyLower (extOf file)
  let extCheck : Except PyExc Unit :=
    match extension_map.lookup lang_upper with
    | some valid_extensions =>
        if valid_extensions.contains file_ext then Except.ok ()
        else Except.error (.valueError (invalidExtMsg file language valid_extensions))
    | none => Except.ok ()
  match extCheck with
  | .error e => .error e
  | .ok () =>
    if !(fs.pathExists file) then
      .error (.fileNotFound s!"File not found: {file}")
    else if !(fs.isfile file) then
      .error (.valueError s!"Path is not a file: {file}")
    else
      let compiled := compiled_langs.contains lang_upper
      if compiled && !(fs.xok file) then
        .error (.permissionError s!"File is not executable: {file}")
      else if !compiled && !(fs.rok file) then
        .error (.permissionError s!"File is not readable: {file}")
      else
        let file2 := if compiled && !(isAbs file) && !(pyStartsWith file "./")
          then "./" ++ file else file
        match (lang_map file2 file_ext).lookup lang_upper with
        | some cmd => .ok cmd
        | none => .error (.valueError s!"Unsupported language: {language}")

/-- One decoded response line (the JSON object a well-formed callee writes
per `OutputManager.output` call), with the fields `request` reads: `key`
(`None`/absent is `none`), `request_status`, `data`, `optionalOutput`,
`isUnique`, `errors`, `warnings`. -/
structure ResponseLine where
  key : Option String
  request_status : Bool
  data : JVal
  optionalOutput : Bool
  isUnique : Bool
  errors : List String
  warnings : List String
deriving Repr

/-- One line of the child's captured stdout, classified the way
`request`'s parsing loop treats it: a blank line (skipped), a line that is
not valid JSON (`json.JSONDecodeError`, silently dropped), a JSON value
that is not an object (dropped by the `isinstance(_, dict)` check), or a
decoded response object. -/
inductive OutLine where
  | blank
  | noise (s : String)
  | nonDict (v : JVal)
  | line (r : ResponseLine)
deriving Repr

/-- What `subprocess.Popen` + `communicate` yield for one spawn: either
the exit code with the captured (already line-split and classified)
stdout and the stderr text, or a raised exception. -/
inductive SpawnResult where
  | ok (returncode : Int) (output : List OutLine) (stderrStr : String)
  | exc (e : PyExc)
deriving Repr

/-- The process-execution environment `request` runs against: the child's
behaviour as a function of the resolved command. -/
structure Env where
  spawn : List String → SpawnResult

/-- The aggregate `self.response` dict: `request_status` is tri-state
(`None`/`True`/`False`), `data` a JSON value (`None` is `JVal.null`). -/
structure AggregateResult where
  request_status : Option Bool
  data : JVal
  optionalOutput : Bool
  isUnique : Bool
  warnings : List String
  errors : List String
deriving Repr

/-- The key filter of `request`'s parsing loop: keep a decoded object iff
its `key` equals the request's key or is `None`/absent. -/
def filterLines (key : String) (output : List OutLine) : List ResponseLine :=
  output.filterMap fun
    | .blank => none
    | .noise _ => none
    | .nonDict _ => none
    | .line r => if r.key = some key ∨ r.key = none then some r else none

/-- The warning appended on the non-zero-exit path. -/
def procFailWarning : String :=
  "Warning: these kind of errors result from an error in the targeted script."

/-- The warning of the named-exception handler of `request`. -/
def resolveFailWarning : String :=
  "Warning: targeted file not found or can't be executed, consider checking file informations and language dependencies."

/-- The warning appended when no line was accepted and output is optional. -/
def optionalWarning : String :=
  "Warning: the output setting is set to optional, and the targeted program didn't gave any output."

/-- The error appended when no line was accepted and output is required. -/
def noOutputError : String :=
  "Error: OutputManager might not be used or not correctly."

/-- The error appended when `isUnique` holds but `n ≠ 1` lines were accepted. -/
def countMismatchError (n : Nat) : String :=
  s!"Error: Expected 1 output (isUnique=True) but received {n}."

/-- The first error entry of the non-zero-exit path. -/
def exitCodeError (returncode : Int) : String :=
  s!"Process exited with code {returncode}"

/-- The stderr error entry of the non-zero-exit path (`t` already stripped). -/
def stderrError (t : String) : String := s!"stderr: {t}"

/-- The `self.response` built on the non-zero-exit path (source lines
199–206): failure status, null data, the exit-code error, the stripped
stderr when non-empty, and the generic targeted-script warning. -/
def procFailResult (isUnique optionalOutput : Bool) (returncode : Int)
    (stderrStr : String) : AggregateResult :=
  { request_status := some false, data := .null,
    optionalOutput := optionalOutput, isUnique := isUnique,
    warnings := [procFailWarning],
    errors := [exitCodeError returncode] ++
      (if pyStrip stderrStr ≠ "" then [stderrError (pyStrip stderrStr)] else []) }

/-- The fold of the accepted response lines into `self.response` (source
lines 224–262): empty ⇒ the optional/required terminal cases; otherwise
status is the conjunction of the lines' statuses, `isUnique` is overridden
by the first line's flag, errors are concatenated in order, and `data` is
the single datum (unique, exactly one line), null plus a count-mismatch
error (unique, several lines), or the list of all data (not unique). -/
def aggregate (isUnique optionalOutput : Bool)
    (accepted : List ResponseLine) : AggregateResult :=
  match accepted with
  | [] =>
    if optionalOutput then
      { request_status := none, data := .null,
        optionalOutput := optionalOutput, isUnique := isUnique,
        warnings := [optionalWarning], errors := [] }
    else
      { request_status := some false, data := .null,
        optionalOutput := optionalOutput, isUnique := isUnique,
        warnings := [], errors := [noOutputError] }
  | first :: _ =>
    let failure := accepted.any fun i => !i.request_status
    let errs := accepted.flatMap ResponseLine.errors
    let data_list := accepted.map ResponseLine.data
    if first.isUnique then
      if data_list.length = 1 then
        { request_status := some (!failure), data := data_list.headD .null,
          optionalOutput := optionalOutput, isUnique := first.isUnique,
          warnings := [], errors := errs }
      else
        { request_status := some false, data := .null,
          optionalOutput := optionalOutput, isUnique := first.isUnique,
          warnings := [],
          errors := errs ++ [countMismatchError data_list.length] }
    else
      { request_status := some (!failure), data := .arr data_list,
        optionalOutput := optionalOutput, isUnique := first.isUnique,
        warnings := [], errors := errs }

/-- The two `except` clauses of `request`: the named handler for
`FileNotFoundError` / `PermissionError` / `ValueError`, the generic one
for every other exception. -/
def handleExc (isUnique optionalOutput : Bool) : PyExc → AggregateResult
  | .otherExc m =>
    { request_status := some false, data := .null,
      optionalOutput := optionalOutput, isUnique := isUnique,
      warnings := [], errors := [s!"Unexpected error: {m}"] }
  | e =>
    { request_status := some false, data := .null,
      optionalOutput := optionalOutput, isUnique := isUnique,
      warnings := [resolveFailWarning],
      errors := ["Error: " ++ e.msg] }

/-- `InputManager.request`: resolve the command, spawn the child, and
either report the exception, report a non-zero exit, or filter the output
lines by key and aggregate them.  The returned value is the dict the
Python method stores into `self.response`. -/
def request (fs : FS) (env : Env) (key : String)
    (isUnique optionalOutput : Bool) (language file : String) : AggregateResult :=
  match get_command fs language file with
  | .error e => handleExc isUnique optionalOutput e
  | .ok command =>
    match env.spawn command with
    | .exc e => handleExc isUnique optionalOutput e
    | .ok returncode output stderrStr =>
      if returncode ≠ 0 then
        procFailResult isUnique optionalOutput returncode stderrStr
      else
        aggregate isUnique optionalOutput (filterLines key output)

/-- The request dict as the callee parses it in `OutputManager.init`
(`cls.__data`): the four fields `InputManager.request` serializes. -/
structure ReqData where
  key : String
  optionalOutput : Bool
  isUnique : Bool
  data : JVal
deriving Repr

/-- One JSON line as `OutputManager.__write` builds it.  `key`,
`request_status`, `optionalOutput` and `isUnique` can each be `None`
(before initialization), hence the `Option`s. -/
structure OMLine where
  key : Option String
  request_status : Option Bool
  data : JVal
  optionalOutput : Option Bool
  isUnique : Option Bool
  errors : List String
  warnings : List String
deriving Repr

/-- The mutable class attributes of `OutputManager` that `output` reads
and writes: `__data` (`none` while never initialized / parsed falsy),
`__optional`, `__request_status`, `__unique_state` (Python `None` before
any output, then the request's `isUnique`), `__init_error` (Python `None`
initially, set `True` after the one not-initialized report; modelled by
its truthiness), and the `__errors` / `__warnings` accumulators. -/
structure OutputManager where
  data : Option ReqData
  optional : Option Bool
  request_status : Option Bool
  unique_state : Option Bool
  init_error : Bool
  errors : List String
  warnings : List String
deriving Repr

/-- The class-attribute values of `OutputManager` in a process that never
called `init()`. -/
def OutputManager.start : OutputManager :=
  { data := none, optional := none, request_status := none,
    unique_state := none, init_error := false, errors := [], warnings := [] }

/-- Python truthiness of an `Option Bool` (`None` and `False` are falsy). -/
def truthy : Option Bool → Bool
  | some true => true
  | _ => false

/-- Python `repr` of an `Option Bool`, as an f-string interpolates it. -/
def pyOptBoolStr : Option Bool → String
  | none => "None"
  | some true => "True"
  | some false => "False"

/-- The error appended by `output` when `init()` never succeeded. -/
def notInitError : String := "Error: OutputManager isn't initialized."

/-- The error appended on a second output under `isUnique=True`; the
f-string interpolates the current `__unique_state`. -/
def outOfBoundError (unique_state : Option Bool) : String :=
  let u := pyOptBoolStr unique_state
  s!"Error: outputs out of bound (isUnique: {u})."

/-- `OutputManager.__write`: the JSON line built from the state and the
`_data` argument (which at every call site is `cls.__data`). -/
def OutputManager.write (s : OutputManager) (args : JVal)
    (reqd : Option ReqData) : OMLine :=
  { key := reqd.map ReqData.key,
    request_status := s.request_status,
    data := args,
    optionalOutput := s.optional,
    isUnique := reqd.map ReqData.isUnique,
    errors := s.errors,
    warnings := s.warnings }

/-- `OutputManager.output`: returns the new state and the line written to
the real stdout, if any.  Uninitialized: report the fatal configuration
error once (first call), then do nothing.  Initialized: permitted when
nothing was output yet (`__unique_state` falsy) or the request's
`isUnique` is false, else the out-of-bounds error — but the value is
written in both cases, and `__unique_state` becomes the request's
`isUnique`. -/
def OutputManager.output (s : OutputManager) (val : JVal) :
    OutputManager × Option OMLine :=
  match s.data with
  | none =>
    if !s.init_error then
      let s1 := { s with request_status := some false,
                         errors := s.errors ++ [notInitError] }
      let line := OutputManager.write s1 JVal.null none
      ({ s1 with init_error := true }, some line)
    else (s, none)
  | some req =>
    if !(truthy s.unique_state) || !req.isUnique then
      let s1 := { s with request_status := some true }
      let line := OutputManager.write s1 val (some req)
      ({ s1 with unique_state := some req.isUnique }, some line)
    else
      let s1 := { s with request_status := some false,
                         errors := s.errors ++ [outOfBoundError s.unique_state] }
      let line := OutputManager.write s1 val (some req)
      ({ s1 with unique_state := some req.isUnique }, some line)

/-- Run a sequence of `output` calls, collecting the lines actually
written to the real stdout in order. -/
def runOutputs (s : OutputManager) : List JVal → OutputManager × List OMLine
  | [] => (s, [])
  | v :: vs =>
    let p := OutputManager.output s v
    let q := runOutputs p.1 vs
    (q.1, p.2.toList ++ q.2)

/-! ## Helper lemmas and concrete fixtures -/

/-- A filesystem on which every query succeeds. -/
def fsAll : FS := ⟨fun _ => true, fun _ => true, fun _ => true, fun _ => true⟩

/-- A filesystem on which every query fails (no path exists). -/
def fsNone : FS := ⟨fun _ => false, fun _ => false, fun _ => false, fun _ => false⟩

theorem request_resolver_err (fs : FS) (env : Env) (key : String)
    (isU opt : Bool) (lang file : String) (e : PyExc)
    (h : get_command fs lang file = Except.error e) :
    request fs env key isU opt lang file = handleExc isU opt e := by
  unfold request; rw [h]

theorem request_spawn_exc (fs : FS) (env : Env) (key : String)
    (isU opt : Bool) (lang file : String) (cmd : List String) (e : PyExc)
    (h1 : get_command fs lang file = Except.ok cmd)
    (h2 : env.spawn cmd = SpawnResult.exc e) :
    request fs env key isU opt lang file = handleExc isU opt e := by
  unfold request; rw [h1]; dsimp only; rw [h2]

theorem request_run (fs : FS) (env : Env) (key : String)
    (isU opt : Bool) (lang file : String) (cmd : List String)
    (ret : Int) (out : List OutLine) (st : String)
    (h1 : get_command fs lang file = Except.ok cmd)
    (h2 : env.spawn cmd = SpawnResult.ok ret out st) :
    request fs env key isU opt lang file =
      if ret ≠ 0 then procFailResult isU opt ret st
      else aggregate isU opt (filterLines key out) := by
  unfold request; rw [h1]; dsimp only; rw [h2]

theorem request_ok_zero (fs : FS) (env : Env) (key : String)
    (isU opt : Bool) (lang file : String) (cmd : List String)
    (out : List OutLine) (st : String)
    (h1 : get_command fs lang file = Except.ok cmd)
    (h2 : env.spawn cmd = SpawnResult.ok 0 out st) :
    request fs env key isU opt lang file =
      aggregate isU opt (filterLines key out) := by
  rw [request_run fs env key isU opt lang file cmd 0 out st h1 h2]
  simp

theorem handleExc_fail (isU opt : Bool) (e : PyExc) :
    (handleExc isU opt e).request_status = some false ∧
    (handleExc isU opt e).errors ≠ [] := by
  cases e <;> simp [handleExc]

theorem aggregate_cons_isUnique (isU opt : Bool) (first : ResponseLine)
    (rest : List ResponseLine) :
    (aggregate isU opt (first :: rest)).isUnique = first.isUnique := by
  unfold aggregate
  by_cases hf : first.isUnique = true
  · simp only [hf, if_true]
    split <;> rfl
  · simp only [Bool.not_eq_true] at hf
    simp [hf]

theorem aggregate_cons_warnings (isU opt : Bool) (first : ResponseLine)
    (rest : List ResponseLine) :
    (aggregate isU opt (first :: rest)).warnings = [] := by
  unfold aggregate
  by_cases hf : first.isUnique = true
  · simp only [hf, if_true]
    split <;> rfl
  · simp only [Bool.not_eq_true] at hf
    simp [hf]

theorem aggregate_unique_many (isU opt : Bool) (first : ResponseLine)
    (rest : List ResponseLine) (hf : first.isUnique = true) (hr : rest ≠ []) :
    (aggregate isU opt (first :: rest)).request_status = some false ∧
    (aggregate isU opt (first :: rest)).data = JVal.null ∧
    (aggregate isU opt (first :: rest)).errors =
      (first :: rest).flatMap ResponseLine.errors ++
        [countMismatchError (first :: rest).length] := by
  have hlen : ¬ ((first :: rest).length = 1) := by
    simp only [List.length_cons]
    intro hcon
    exact hr (List.length_eq_zero.mp (Nat.succ_injective hcon))
  unfold aggregate
  simp only [hf, if_true, List.length_map]
  rw [if_neg hlen]
  exact ⟨rfl, rfl, rfl⟩

/-- Fixture: a response line with the given key, status, datum, uniqueness
flag and accumulators (`optionalOutput` echoed as `true`). -/
def mkLine (key : Option String) (st : Bool) (d : JVal) (u : Bool)
    (es ws : List String) : ResponseLine :=
  { key := key, request_status := st, data := d, optionalOutput := true,
    isUnique := u, errors := es, warnings := ws }

/-- Fixture: a child that exits 0 with the given stdout lines. -/
def envOut (out : List OutLine) : Env := ⟨fun _ => SpawnResult.ok 0 out ""⟩

/-- Fixture: a child that exits 0 printing nothing. -/
def envEmptyOut : Env := envOut []

/-! ## C1 -/

def lineC1a : ResponseLine := mkLine (some "k") true (.num 5) false [] []

def envC1a : Env := envOut [.line lineC1a]

/-- C1 (counterexample): the claim fails on the code in two ways, both at
exit status 0 with a resolvable python file.  (a) A call with the caller
flag `isUnique=true` whose single accepted line carries `isUnique=false`
yields `data = [5]` — a sequence — because the aggregation overrides the
caller's flag with the first accepted line's.  (b) A call with
`isUnique=false` and zero accepted lines yields `data = null`, not a
sequence of length 0. -/
theorem C1_counterexample :
    (request fsAll envC1a "k" true true "python" "t.py").data =
      JVal.arr [JVal.num 5] ∧
    (request fsAll envEmptyOut "k" false true "python" "t.py").data =
      JVal.null := ⟨rfl, rfl⟩

/-- C1 (amended): on a run that resolves and exits 0, the shape of `data`
is governed by the *effective* uniqueness flag — the first accepted line's
`isUnique`, not the caller's — and only when at least one line is
accepted: with no accepted line `data` is null; with a first-line flag
`true`, `data` is the single accepted line's datum (exactly one line) or
null (several lines); with a first-line flag `false`, `data` is the
sequence of all accepted lines' data, whose length equals the number of
accepted lines. -/
theorem C1_data_shape (fs : FS) (env : Env) (key : String) (isU opt : Bool)
    (lang file : String) (cmd : List String) (out : List OutLine) (st : String)
    (h1 : get_command fs lang file = Except.ok cmd)
    (h2 : env.spawn cmd = SpawnResult.ok 0 out st) :
    (filterLines key out = [] →
      (request fs env key isU opt lang file).data = JVal.null) ∧
    (∀ first rest, filterLines key out = first :: rest →
      (first.isUnique = true → rest = [] →
        (request fs env key isU opt lang file).data = first.data) ∧
      (first.isUnique = true → rest ≠ [] →
        (request fs env key isU opt lang file).data = JVal.null) ∧
      (first.isUnique = false →
        (request fs env key isU opt lang file).data =
          JVal.arr ((first :: rest).map ResponseLine.data) ∧
        ((first :: rest).map ResponseLine.data).length =
          (first :: rest).length)) := by
  rw [request_ok_zero fs env key isU opt lang file cmd out st h1 h2]
  refine ⟨?_, ?_⟩
  · intro h; rw [h]; cases opt <;> rfl
  · intro first rest hacc
    rw [hacc]
    refine ⟨?_, ?_, ?_⟩
    · intro hf hrest
      subst hrest
      unfold aggregate
      simp [hf]
    · intro hf hrest
      exact (aggregate_unique_many isU opt first rest hf hrest).2.1
    · intro hf
      unfold aggregate
      simp [hf]

def lineC1w1 : ResponseLine := mkLine (some "k") true (.num 1) false [] []

def lineC1w2 : ResponseLine := mkLine (some "k") true (.num 2) false [] []

def envC1w : Env := envOut [.line lineC1w1, .line lineC1w2]

/-- C1 (witness): two accepted lines whose first carries `isUnique=false`
give `data = [1, 2]`. -/
theorem C1_data_shape_witness :
    (request fsAll envC1w "k" true true "python" "t.py").data =
      JVal.arr [JVal.num 1, JVal.num 2] := by
  have h := C1_data_shape fsAll envC1w "k" true true "python" "t.py"
    ["python", "t.py"] [.line lineC1w1, .line lineC1w2] "" rfl rfl
  exact ((h.2 lineC1w1 [lineC1w2] rfl).2.2 rfl).1

/-! ## C2 -/

/-- C2: whenever at least one response line is accepted, the
`AggregateResult`'s `isUnique` field — the flag the aggregation then
branches on — equals the first accepted line's `isUnique`, for every
caller flag `isU`. -/
theorem C2_first_line_flag (fs : FS) (env : Env) (key : String)
    (isU opt : Bool) (lang file : String) (cmd : List String)
    (out : List OutLine) (st : String) (first : ResponseLine)
    (rest : List ResponseLine)
    (h1 : get_command fs lang file = Except.ok cmd)
    (h2 : env.spawn cmd = SpawnResult.ok 0 out st)
    (h3 : filterLines key out = first :: rest) :
    (request fs env key isU opt lang file).isUnique = first.isUnique := by
  rw [request_ok_zero fs env key isU opt lang file cmd out st h1 h2, h3,
    aggregate_cons_isUnique]

def lineC2a : ResponseLine := mkLine (some "k") true (.num 3) false [] []

def envC2a : Env := envOut [.line lineC2a]

def lineC2b : ResponseLine := mkLine (some "k") true (.num 3) true [] []

def envC2b : Env := envOut [.line lineC2b]

/-- C2 (witness): a caller flag `true` is overridden to `false` by the
first line, and a caller flag `false` is overridden to `true`. -/
theorem C2_first_line_flag_witness :
    (request fsAll envC2a "k" true true "python" "t.py").isUnique = false ∧
    (request fsAll envC2b "k" false true "python" "t.py").isUnique = true := by
  constructor
  · exact C2_first_line_flag fsAll envC2a "k" true true "python" "t.py"
      ["python", "t.py"] [.line lineC2a] "" lineC2a [] rfl rfl rfl
  · exact C2_first_line_flag fsAll envC2b "k" false true "python" "t.py"
      ["python", "t.py"] [.line lineC2b] "" lineC2b [] rfl rfl rfl

/-! ## C3 -/

/-- C3: on a run that resolves and exits 0 with no accepted line, the
result is exactly the optional-output record (`request_status` unset,
`data` null, the no-output warning) when `optionalOutput` is true, and
exactly the required-output record (`request_status = false`, `data`
null, the no-output error) when it is false. -/
theorem C3_empty_accepted (fs : FS) (env : Env) (key : String)
    (isU opt : Bool) (lang file : String) (cmd : List String)
    (out : List OutLine) (st : String)
    (h1 : get_command fs lang file = Except.ok cmd)
    (h2 : env.spawn cmd = SpawnResult.ok 0 out st)
    (h3 : filterLines key out = []) :
    request fs env key isU opt lang file =
      (if opt then
        { request_status := none, data := JVal.null, optionalOutput := opt,
          isUnique := isU, warnings := [optionalWarning], errors := [] }
      else
        { request_status := some false, data := JVal.null,
          optionalOutput := opt, isUnique := isU, warnings := [],
          errors := [noOutputError] }) := by
  rw [request_ok_zero fs env key isU opt lang file cmd out st h1 h2, h3]
  rfl

/-- C3 (witness): both cases at a concrete call that produces no accepted
line. -/
theorem C3_empty_accepted_witness :
    request fsAll envEmptyOut "k" true true "python" "t.py" =
      { request_status := none, data := JVal.null, optionalOutput := true,
        isUnique := true, warnings := [optionalWarning], errors := [] } ∧
    request fsAll envEmptyOut "k" true false "python" "t.py" =
      { request_status := some false, data := JVal.null,
        optionalOutput := false, isUnique := true, warnings := [],
        errors := [noOutputError] } := by
  constructor
  · exact C3_empty_accepted fsAll envEmptyOut "k" true true "python" "t.py"
      ["python", "t.py"] [] "" rfl rfl rfl
  · exact C3_empty_accepted fsAll envEmptyOut "k" true false "python" "t.py"
      ["python", "t.py"] [] "" rfl rfl rfl

/-! ## C4 -/

/-- C4: on a run that resolves and exits 0 with more than one accepted
line whose first carries `isUnique=true`, the result has
`request_status = false`, `data = null`, and its errors contain the
count-mismatch entry for the number of accepted lines — with no
assumption on the individual lines' own `request_status`. -/
theorem C4_unique_violation (fs : FS) (env : Env) (key : String)
    (isU opt : Bool) (lang file : String) (cmd : List String)
    (out : List OutLine) (st : String) (first : ResponseLine)
    (rest : List ResponseLine)
    (h1 : get_command fs lang file = Except.ok cmd)
    (h2 : env.spawn cmd = SpawnResult.ok 0 out st)
    (h3 : filterLines key out = first :: rest)
    (h4 : first.isUnique = true) (h5 : rest ≠ []) :
    (request fs env key isU opt lang file).request_status = some false ∧
    (request fs env key isU opt lang file).data = JVal.null ∧
    countMismatchError (first :: rest).length ∈
      (request fs env key isU opt lang file).errors := by
  rw [request_ok_zero fs env key isU opt lang file cmd out st h1 h2, h3]
  obtain ⟨ha, hb, hc⟩ := aggregate_unique_many isU opt first rest h4 h5
  refine ⟨ha, hb, ?_⟩
  rw [hc]
  exact List.mem_append_right _ (List.mem_singleton.mpr rfl)

def lineC4a : ResponseLine := mkLine (some "k") true (.num 1) true [] []

def lineC4b : ResponseLine := mkLine (some "k") true (.num 2) true [] []

def envC4 : Env := envOut [.line lineC4a, .line lineC4b]

/-- C4 (witness): two accepted lines that each report success, under a
first-line flag `isUnique=true`. -/
theorem C4_unique_violation_witness :
    (request fsAll envC4 "k" true true "python" "t.py").request_status =
      some false ∧
    (request fsAll envC4 "k" true true "python" "t.py").data = JVal.null ∧
    countMismatchError 2 ∈
      (request fsAll envC4 "k" true true "python" "t.py").errors := by
  exact C4_unique_violation fsAll envC4 "k" true true "python" "t.py"
    ["python", "t.py"] [.line lineC4a, .line lineC4b] "" lineC4a [lineC4b]
    rfl rfl rfl rfl (List.cons_ne_nil _ _)

/-! ## C5 -/

def lineC5 : ResponseLine := mkLine (some "k") false (.num 1) true [] []

def envC5 : Env := envOut [.line lineC5]

/-- C5 (counterexample): a failure result can carry an *empty* errors
list.  A child that exits 0 and emits one accepted line with
`request_status=false` but no per-line errors makes the aggregation set
`request_status=false` while `errors` stays `[]` — so not every failure
path populates `errors`. -/
theorem C5_counterexample :
    (request fsAll envC5 "k" true true "python" "t.py").request_status =
      some false ∧
    (request fsAll envC5 "k" true true "python" "t.py").errors = [] :=
  ⟨rfl, rfl⟩

/-- C5 (amended): `request` is a total function of its inputs — modelled so
that every Python exception surfaces as a `PyExc` value of the
environment, each of which it converts into an `AggregateResult` — and
every *bridge-side* failure path yields `request_status=false` together
with a non-empty errors list: a resolver failure, any exception during
spawn/decode (a generic one producing exactly
`["Unexpected error: <detail>"]`), a non-zero exit, a missing required
output, and a uniqueness violation.  (A failure that merely mirrors
accepted lines' own `request_status=false` keeps their concatenated —
possibly empty — errors, per the counterexample.) -/
theorem C5_failure_paths (fs : FS) (env : Env) (key : String)
    (isU opt : Bool) (lang file : String) :
    (∀ e, get_command fs lang file = Except.error e →
      (request fs env key isU opt lang file).request_status = some false ∧
      (request fs env key isU opt lang file).errors ≠ []) ∧
    (∀ cmd e, get_command fs lang file = Except.ok cmd →
      env.spawn cmd = SpawnResult.exc e →
      (request fs env key isU opt lang file).request_status = some false ∧
      (request fs env key isU opt lang file).errors ≠ []) ∧
    (∀ cmd m, get_command fs lang file = Except.ok cmd →
      env.spawn cmd = SpawnResult.exc (PyExc.otherExc m) →
      (request fs env key isU opt lang file).errors =
        [s!"Unexpected error: {m}"]) ∧
    (∀ cmd ret out st, get_command fs lang file = Except.ok cmd →
      env.spawn cmd = SpawnResult.ok ret out st → ret ≠ 0 →
      (request fs env key isU opt lang file).request_status = some false ∧
      (request fs env key isU opt lang file).errors ≠ []) ∧
    (∀ cmd out st, get_command fs lang file = Except.ok cmd →
      env.spawn cmd = SpawnResult.ok 0 out st → filterLines key out = [] →
      opt = false →
      (request fs env key isU opt lang file).request_status = some false ∧
      (request fs env key isU opt lang file).errors ≠ []) ∧
    (∀ cmd out st first rest, get_command fs lang file = Except.ok cmd →
      env.spawn cmd = SpawnResult.ok 0 out st →
      filterLines key out = first :: rest → first.isUnique = true →
      rest ≠ [] →
      (request fs env key isU opt lang file).request_status = some false ∧
      (request fs env key isU opt lang file).errors ≠ []) := by
  refine ⟨?_, ?_, ?_, ?_, ?_, ?_⟩
  · intro e h
    rw [request_resolver_err fs env key isU opt lang file e h]
    exact handleExc_fail isU opt e
  · intro cmd e h1 h2
    rw [request_spawn_exc fs env key isU opt lang file cmd e h1 h2]
    exact handleExc_fail isU opt e
  · intro cmd m h1 h2
    rw [request_spawn_exc fs env key isU opt lang file cmd _ h1 h2]
    rfl
  · intro cmd ret out st h1 h2 h3
    rw [request_run fs env key isU opt lang file cmd ret out st h1 h2,
      if_pos h3]
    exact ⟨rfl, by simp [procFailResult]⟩
  · intro cmd out st h1 h2 h3 h4
    rw [request_ok_zero fs env key isU opt lang file cmd out st h1 h2, h3]
    subst h4
    exact ⟨rfl, by simp [aggregate, noOutputError]⟩
  · intro cmd out st first rest h1 h2 h3 h4 h5
    rw [request_ok_zero fs env key isU opt lang file cmd out st h1 h2, h3]
    obtain ⟨ha, _, hc⟩ := aggregate_unique_many isU opt first rest h4 h5
    exact ⟨ha, by rw [hc]; simp⟩

def envExc : Env := ⟨fun _ => SpawnResult.exc (.otherExc "boom")⟩

/-- C5 (witness): two concrete bridge-side failures — an unresolvable file
(no path exists) and a generic spawn exception, the latter with exactly
the `Unexpected error:` entry. -/
theorem C5_failure_paths_witness :
    ((request fsNone envEmptyOut "k" true true "python" "t.py").request_status =
        some false ∧
      (request fsNone envEmptyOut "k" true true "python" "t.py").errors ≠ []) ∧
    (request fsAll envExc "k" true true "python" "t.py").errors =
      ["Unexpected error: boom"] := by
  constructor
  · exact (C5_failure_paths fsNone envEmptyOut "k" true true "python"
      "t.py").1 (PyExc.fileNotFound "File not found: t.py") rfl
  · exact (C5_failure_paths fsAll envExc "k" true true "python"
      "t.py").2.2.1 ["python", "t.py"] "boom" rfl rfl

/-! ## C6 -/

/-- C6: whenever the child's exit status `ret` is non-zero, the result is
exactly the process-failure record: `request_status = false`, errors
containing the exit-code entry (and, when the stripped stderr is
non-empty, its `stderr:` entry), and the generic warning that this class
of failure originates in the targeted script — regardless of what the
child printed on stdout before exiting. -/
theorem C6_nonzero_exit (fs : FS) (env : Env) (key : String)
    (isU opt : Bool) (lang file : String) (cmd : List String)
    (ret : Int) (out : List OutLine) (st : String)
    (h1 : get_command fs lang file = Except.ok cmd)
    (h2 : env.spawn cmd = SpawnResult.ok ret out st)
    (h3 : ret ≠ 0) :
    request fs env key isU opt lang file = procFailResult isU opt ret st ∧
    (request fs env key isU opt lang file).request_status = some false ∧
    exitCodeError ret ∈ (request fs env key isU opt lang file).errors ∧
    procFailWarning ∈ (request fs env key isU opt lang file).warnings ∧
    (pyStrip st ≠ "" →
      stderrError (pyStrip st) ∈
        (request fs env key isU opt lang file).errors) := by
  have hr := request_run fs env key isU opt lang file cmd ret out st h1 h2
  rw [if_pos h3] at hr
  rw [hr]
  refine ⟨rfl, rfl, ?_, ?_, ?_⟩
  · exact List.mem_append_left _ (List.mem_singleton.mpr rfl)
  · exact List.mem_singleton.mpr rfl
  · intro hst
    show stderrError (pyStrip st) ∈
      [exitCodeError ret] ++
        (if pyStrip st ≠ "" then [stderrError (pyStrip st)] else [])
    rw [if_pos hst]
    exact List.mem_append_right _ (List.mem_singleton.mpr rfl)

def lineC6 : ResponseLine := mkLine (some "k") true (.num 4) true [] []

def envC6 : Env := ⟨fun _ => SpawnResult.ok 2 [.line lineC6] "  boom \n"⟩

/-- C6 (witness): exit code 2 with non-empty stderr, even though the child
printed a valid, key-matching response line first. -/
theorem C6_nonzero_exit_witness :
    (request fsAll envC6 "k" true true "python" "t.py").request_status =
      some false ∧
    exitCodeError 2 ∈ (request fsAll envC6 "k" true true "python" "t.py").errors ∧
    procFailWarning ∈
      (request fsAll envC6 "k" true true "python" "t.py").warnings ∧
    stderrError "boom" ∈
      (request fsAll envC6 "k" true true "python" "t.py").errors := by
  have h := C6_nonzero_exit fsAll envC6 "k" true true "python" "t.py"
    ["python", "t.py"] 2 [.line lineC6] "  boom \n" rfl rfl (by decide)
  exact ⟨h.2.1, h.2.2.1, h.2.2.2.1, h.2.2.2.2 (by decide)⟩

/-! ## C7 -/

/-- C7: for a language in the extension table and a file whose (lowered)
extension is not in the language's accepted set, `get_command` fails with
the invalid-extension `ValueError` *for every filesystem state* — so the
outcome is decided before any filesystem access, and a nonexistent path
with a bad extension yields the extension error, never the not-found
error. -/
theorem C7_extension_before_filesystem (lang file : String)
    (exts : List String)
    (h1 : extension_map.lookup (pyUpper lang) = some exts)
    (h2 : exts.contains (pyLower (extOf file)) = false) :
    ∀ fs : FS, get_command fs lang file =
      Except.error (PyExc.valueError (invalidExtMsg file lang exts)) := by
  intro fs
  simp only [get_command]
  rw [h1]
  dsimp only
  rw [h2]
  rfl

/-- C7 (witness): `python` with a `.txt` file on the all-failing
filesystem (the path does not exist) still reports the extension error,
not the not-found error. -/
theorem C7_extension_before_filesystem_witness :
    get_command fsNone "python" "ghost.txt" =
      Except.error
        (PyExc.valueError (invalidExtMsg "ghost.txt" "python" [".py"])) :=
  C7_extension_before_filesystem "python" "ghost.txt" [".py"] rfl rfl fsNone

/-! ## C8 -/

/-- C8 (counterexample): an unrecognized language identifier does *not*
short-circuit to `UnsupportedLanguage` for every file argument: the
extension check is skipped for it, so the filesystem checks run first,
and "LUA" with a nonexistent path fails with `FileNotFound` instead. -/
theorem C8_counterexample :
    get_command fsNone "LUA" "script.lua" =
      Except.error (PyExc.fileNotFound "File not found: script.lua") ∧
    get_command fsNone "LUA" "script.lua" ≠
      Except.error (PyExc.valueError "Unsupported language: LUA") := by
  constructor
  · rfl
  · intro h
    exact PyExc.noConfusion (Except.error.inj h)

/-- C8 (amended): for a language recognized by neither table, resolution
fails with the `Unsupported language` `ValueError` *provided the file
passes the filesystem checks* (it exists, is a regular file, and is
readable); a file that fails one of those checks reports the
corresponding filesystem error instead, per the counterexample. -/
theorem C8_unsupported_language (fs : FS) (lang file : String)
    (h1 : extension_map.lookup (pyUpper lang) = none)
    (h2 : ∀ f e : String, (lang_map f e).lookup (pyUpper lang) = none)
    (h3 : fs.pathExists file = true) (h4 : fs.isfile file = true)
    (h5 : fs.rok file = true) :
    get_command fs lang file =
      Except.error (PyExc.valueError s!"Unsupported language: {lang}") := by
  have hc : compiled_langs.contains (pyUpper lang) = false := by
    rcases hb : compiled_langs.contains (pyUpper lang) with _ | _
    · rfl
    · exfalso
      have hm : pyUpper lang ∈ compiled_langs := by
        simpa using hb
      have hsome : (extension_map.lookup (pyUpper lang)).isSome = true := by
        simp only [compiled_langs, List.mem_cons, List.not_mem_nil,
          or_false] at hm
        rcases hm with h | h | h | h | h | h | h | h | h | h | h | h <;>
          rw [h] <;> rfl
      rw [h1] at hsome
      simp at hsome
  simp only [get_command, h1, h3, h4, h5, hc, h2, Bool.not_true,
    Bool.false_and, Bool.and_false, Bool.not_false, Bool.true_and,
    if_false, if_true]
  rfl

/-- C8 (witness): "LUA" on the all-passing filesystem resolves to the
`Unsupported language` error. -/
theorem C8_unsupported_language_witness :
    get_command fsAll "LUA" "script.lua" =
      Except.error (PyExc.valueError "Unsupported language: LUA") :=
  C8_unsupported_language fsAll "LUA" "script.lua" rfl (fun _ _ => rfl)
    rfl rfl rfl

/-! ## C9 -/

theorem runOutputs_silent (vs : List JVal) (s : OutputManager)
    (h1 : s.data = none) (h2 : s.init_error = true) :
    runOutputs s vs = (s, []) := by
  induction vs with
  | nil => rfl
  | cons v vs ih =>
    have hout : OutputManager.output s v = (s, none) := by
      unfold OutputManager.output
      rw [h1, h2]
      rfl
    show (let p := OutputManager.output s v
          let q := runOutputs p.1 vs
          (q.1, p.2.toList ++ q.2)) = (s, [])
    rw [hout]
    dsimp only
    rw [ih]
    rfl

/-- C9: starting from the never-initialized `OutputManager` state, any
non-empty sequence of `output` calls writes exactly one line to the real
output channel — the not-initialized report, with `request_status=false`,
a null key and the not-initialized error — and every later call writes
nothing. -/
theorem C9_not_initialized_reported_once (v : JVal) (vs : List JVal) :
    (runOutputs OutputManager.start (v :: vs)).2 =
      [{ key := none, request_status := some false, data := JVal.null,
         optionalOutput := none, isUnique := none,
         errors := [notInitError], warnings := [] }] := by
  have hout : OutputManager.output OutputManager.start v =
      ({ data := none, optional := none, request_status := some false,
         unique_state := none, init_error := true,
         errors := [notInitError], warnings := [] },
       some { key := none, request_status := some false, data := JVal.null,
              optionalOutput := none, isUnique := none,
              errors := [notInitError], warnings := [] }) := rfl
  show (let p := OutputManager.output OutputManager.start v
        let q := runOutputs p.1 vs
        (q.1, p.2.toList ++ q.2)).2 =
      [{ key := none, request_status := some false, data := JVal.null,
         optionalOutput := none, isUnique := none,
         errors := [notInitError], warnings := [] }]
  rw [hout]
  dsimp only
  rw [runOutputs_silent vs _ rfl rfl]
  rfl

/-! ## C10 -/

/-- C10: on a run that resolves and exits 0 with at least one accepted
line, the aggregate's `warnings` is empty — so no entry of any accepted
line's `warnings` ever reaches it (only per-line `errors` are folded into
the aggregate; the aggregate's warnings come only from the bridge's own
failure paths, which produce no accepted lines). -/
theorem C10_line_warnings_discarded (fs : FS) (env : Env) (key : String)
    (isU opt : Bool) (lang file : String) (cmd : List String)
    (out : List OutLine) (st : String) (first : ResponseLine)
    (rest : List ResponseLine)
    (h1 : get_command fs lang file = Except.ok cmd)
    (h2 : env.spawn cmd = SpawnResult.ok 0 out st)
    (h3 : filterLines key out = first :: rest) :
    (request fs env key isU opt lang file).warnings = [] ∧
    (∀ l ∈ (first :: rest), ∀ w ∈ l.warnings,
      w ∉ (request fs env key isU opt lang file).warnings) := by
  have hw : (request fs env key isU opt lang file).warnings = [] := by
    rw [request_ok_zero fs env key isU opt lang file cmd out st h1 h2, h3,
      aggregate_cons_warnings]
  refine ⟨hw, ?_⟩
  intro l _ w _
  rw [hw]
  exact List.not_mem_nil w

def lineC10 : ResponseLine :=
  mkLine (some "k") true (.num 2) false ["e1"] ["w1", "w2"]

def envC10 : Env := envOut [.line lineC10]

/-- C10 (witness): an accepted line carrying warnings `["w1", "w2"]` and
an error `["e1"]`: the aggregate's warnings are empty (while its errors
did absorb the line's error). -/
theorem C10_line_warnings_discarded_witness :
    (request fsAll envC10 "k" true true "python" "t.py").warnings = [] ∧
    "w1" ∉ (request fsAll envC10 "k" true true "python" "t.py").warnings := by
  have h := C10_line_warnings_discarded fsAll envC10 "k" true true "python"
    "t.py" ["python", "t.py"] [.line lineC10] "" lineC10 [] rfl rfl rfl
  exact ⟨h.1, h.2 lineC10 (List.mem_singleton.mpr rfl) "w1"
    (by simp [lineC10, mkLine])⟩

end Mangle
